import Mathlib

/-!
Shallow embedding of `drivers/i2c/qmc5883l_driver.go` (gobot QMC5883L
magnetometer driver).

Modelling conventions:
* Go `uint8`/`uint16` register values are `Nat` (all arithmetic on them in the
  source stays far below any wrap point, except the `int32` accumulators of
  `Read`, which are modelled with explicit 32-bit wrapping via `wrap32`).
* Go `int16` results are `Int`, produced by `toInt16` (explicit `% 2^16`
  conversion with sign).
* Go `float64` is modelled by `ℚ` for the averaging/scaling arithmetic of
  `Read` and by `ℝ` for the trigonometry of `Heading` (`math.Atan2` becomes
  `Complex.arg ⟨x, y⟩`, which agrees with `atan2 y x` on all finite inputs).
* The I2C bus is an oracle: `bus : Nat → Except ε (List Nat)` gives the
  6-byte block answered to the i-th `ReadBlockData` call, and
  `write : Nat → Nat → Except ε Unit` gives the outcome of a
  `WriteByteData reg value` call.  the Go `initialize` model additionally returns the
  ordered trace of writes it attempted.
* Go maps are association lists; a missing key yields the zero value `0`
  (`goMapGet`), and two-result lookup is `goMapLookup`.  Map iteration order
  is an explicit parameter (an arbitrary permutation of the keys) wherever
  the source iterates over a map.
* `panic(err)` inside an option setter is modelled by `Except.error`.
-/

/-- Register addresses and control bits from the source constants. -/
def qmc5883lRegX : Nat := 0x00

def qmc5883lRegCtrl1 : Nat := 0x09

def qmc5883lRegCtrl2 : Nat := 0x0A

def qmc5883lCtrl1_Mode_Standby : Nat := 0x00

def qmc5883lCtrl1_Mode_Continuous : Nat := 0x01

def qmc5883lCtrl1_ODR_10Hz : Nat := 0x00

def qmc5883lCtrl1_ODR_50Hz : Nat := 0x04

def qmc5883lCtrl1_ODR_100Hz : Nat := 0x08

def qmc5883lCtrl1_ODR_200Hz : Nat := 0x0C

def qmc5883lCtrl1_RNG_2G : Nat := 0x00

def qmc5883lCtrl1_RNG_8G : Nat := 0x10

def qmc5883lCtrl1_OSR_512 : Nat := 0x00

def qmc5883lCtrl1_OSR_256 : Nat := 0x40

def qmc5883lCtrl1_OSR_128 : Nat := 0x80

def qmc5883lCtrl1_OSR_64 : Nat := 0xC0

def qmc5883lCtrl2_SOFT_RST : Nat := 0x80

def qmc5883lCtrl2_ROL_PNT : Nat := 0x40

/-- Driver state: the validated configuration fields (`uint8` in the source;
`osr` already holds the resolved bit pattern, exactly as in the Go struct). -/
structure QMC5883LDriver where
  odr : Nat
  rng : Nat
  osr : Nat
  mode : Nat
  deriving Repr, DecidableEq

/-- Go map two-result lookup `v, ok := m[k]`. -/
def goMapLookup (m : List (Nat × Nat)) (k : Nat) : Option Nat :=
  (m.find? (fun p => p.1 == k)).map (fun p => p.2)

/-- Go map single-result lookup `m[k]`: missing keys yield the zero value. -/
def goMapGet (m : List (Nat × Nat)) (k : Nat) : Nat :=
  (goMapLookup m k).getD 0

/-- The key set of a Go map (iteration order is modelled separately). -/
def goMapKeys (m : List (Nat × Nat)) : List Nat :=
  m.map (fun p => p.1)

/-- `qmc5883lODRBits`: ODR value → control-register-1 bits. -/
def qmc5883lODRBits : List (Nat × Nat) :=
  [(10, qmc5883lCtrl1_ODR_10Hz), (50, qmc5883lCtrl1_ODR_50Hz),
   (100, qmc5883lCtrl1_ODR_100Hz), (200, qmc5883lCtrl1_ODR_200Hz)]

/-- `qmc5883lRNGBits`: range value → control-register-1 bits. -/
def qmc5883lRNGBits : List (Nat × Nat) :=
  [(2, qmc5883lCtrl1_RNG_2G), (8, qmc5883lCtrl1_RNG_8G)]

/-- `qmc5883lOSRBits`: oversampling ratio → control-register-1 bits. -/
def qmc5883lOSRBits : List (Nat × Nat) :=
  [(512, qmc5883lCtrl1_OSR_512), (256, qmc5883lCtrl1_OSR_256),
   (128, qmc5883lCtrl1_OSR_128), (64, qmc5883lCtrl1_OSR_64)]

/-- Go `sort.Ints`: any correct sort; modelled by insertion sort. -/
def goSortInts (l : List Nat) : List Nat :=
  List.insertionSort (· ≤ ·) l

/-- Go `fmt.Sprintf "%v"` applied to an int slice: `[a b c]`. -/
def goIntSliceString (l : List Nat) : String :=
  "[" ++ String.intercalate " " (l.map toString) ++ "]"

/-- `qmc5883lValidateODR`, with the map iteration order an explicit
parameter `iter` (a permutation of the keys collected before sorting). -/
def qmc5883lValidateODR (iter : List Nat) (odr : Nat) : Except String Unit :=
  if (goMapLookup qmc5883lODRBits odr).isSome then Except.ok ()
  else Except.error ("ODR must be one of: " ++ goIntSliceString (goSortInts iter))

/-- `qmc5883lValidateRNG` (see `qmc5883lValidateODR` for the `iter` role). -/
def qmc5883lValidateRNG (iter : List Nat) (rng : Nat) : Except String Unit :=
  if (goMapLookup qmc5883lRNGBits rng).isSome then Except.ok ()
  else Except.error ("RNG must be one of: " ++ goIntSliceString (goSortInts iter))

/-- `qmc5883lValidateOSR` (see `qmc5883lValidateODR` for the `iter` role). -/
def qmc5883lValidateOSR (iter : List Nat) (osr : Nat) : Except String Unit :=
  if (goMapLookup qmc5883lOSRBits osr).isSome then Except.ok ()
  else Except.error ("OSR must be one of: " ++ goIntSliceString (goSortInts iter))

/-- `WithQMC5883LODR` applied to a `*QMC5883LDriver`; `panic(err)` is
`Except.error err`, success returns the updated driver. -/
def WithQMC5883LODR (iter : List Nat) (val : Nat) (d : QMC5883LDriver) :
    Except String QMC5883LDriver :=
  match qmc5883lValidateODR iter val with
  | Except.error e => Except.error e
  | Except.ok _ => Except.ok { d with odr := val }

/-- `WithQMC5883LRNG` applied to a `*QMC5883LDriver`. -/
def WithQMC5883LRNG (iter : List Nat) (val : Nat) (d : QMC5883LDriver) :
    Except String QMC5883LDriver :=
  match qmc5883lValidateRNG iter val with
  | Except.error e => Except.error e
  | Except.ok _ => Except.ok { d with rng := val }

/-- `WithQMC5883LOSR` applied to a `*QMC5883LDriver`; note the stored field is
the resolved bit pattern `qmc5883lOSRBits[val]`, not `val` itself. -/
def WithQMC5883LOSR (iter : List Nat) (val : Nat) (d : QMC5883LDriver) :
    Except String QMC5883LDriver :=
  match qmc5883lValidateOSR iter val with
  | Except.error e => Except.error e
  | Except.ok _ => Except.ok { d with osr := goMapGet qmc5883lOSRBits val }

/-- The exposed configuration options (the three `WithQMC5883L…` setters,
each carrying its map-iteration order). -/
inductive QMC5883LOption where
  | odr (iter : List Nat) (val : Nat)
  | rng (iter : List Nat) (val : Nat)
  | osr (iter : List Nat) (val : Nat)

/-- Apply one option to the driver under construction. -/
def applyQMC5883LOption (d : QMC5883LDriver) : QMC5883LOption → Except String QMC5883LDriver
  | QMC5883LOption.odr iter val => WithQMC5883LODR iter val d
  | QMC5883LOption.rng iter val => WithQMC5883LRNG iter val d
  | QMC5883LOption.osr iter val => WithQMC5883LOSR iter val d

/-- The default configuration built by `NewQMC5883LDriver` before options run. -/
def qmc5883lDefaultDriver : QMC5883LDriver :=
  { odr := 50, rng := 2, osr := goMapGet qmc5883lOSRBits 512,
    mode := qmc5883lCtrl1_Mode_Continuous }

/-- `NewQMC5883LDriver`: defaults, then each option in order (an option that
panics aborts construction, modelled by `Except.error`). -/
def NewQMC5883LDriver (options : List QMC5883LOption) : Except String QMC5883LDriver :=
  options.foldlM applyQMC5883LOption qmc5883lDefaultDriver

/-- Go `int16(u)` for a `uint16`-ranged value: explicit `% 2^16` with sign. -/
def toInt16 (n : Nat) : Int :=
  if n % 65536 < 32768 then (n % 65536 : Int) else (n % 65536 : Int) - 65536

/-- Go `int32` wrap-around for the summation in `Read`: explicit `% 2^32`. -/
def wrap32 (n : Int) : Int :=
  (n + 2 ^ 31) % 2 ^ 32 - 2 ^ 31

/-- `readRawData`: one 6-byte block read starting at the X register,
reconstructing `int16(uint16(data[1]) | uint16(data[0])<<8)` per axis. -/
def readRawData {ε : Type} (resp : Except ε (List Nat)) : Except ε (Int × Int × Int) :=
  match resp with
  | Except.error e => Except.error e
  | Except.ok data =>
      Except.ok
        (toInt16 (data.getD 1 0 ||| data.getD 0 0 <<< 8),
         toInt16 (data.getD 3 0 ||| data.getD 2 0 <<< 8),
         toInt16 (data.getD 5 0 ||| data.getD 4 0 <<< 8))

/-- The raw-read loop of `Read`: `n` remaining iterations, `i` raw reads done
so far, `int32` accumulators per axis.  Returns the loop outcome together with
the number of raw reads performed. -/
def qmc5883lReadLoop {ε : Type} (bus : Nat → Except ε (List Nat)) :
    Nat → Nat → Int → Int → Int → Except ε (Int × Int × Int) × Nat
  | 0, _, sX, sY, sZ => (Except.ok (sX, sY, sZ), 0)
  | n + 1, i, sX, sY, sZ =>
      match readRawData (bus i) with
      | Except.error e => (Except.error e, 1)
      | Except.ok (xr, yr, zr) =>
          let r := qmc5883lReadLoop bus n (i + 1)
            (wrap32 (sX + xr)) (wrap32 (sY + yr)) (wrap32 (sZ + zr))
          (r.1, r.2 + 1)

/-- `Read`: average of 10 raw samples per axis, scaled by the range-dependent
factor; also reports how many raw reads were performed.  `float64` arithmetic
is modelled over `ℚ`. -/
def QMC5883LDriver.Read {ε : Type} (q : QMC5883LDriver)
    (bus : Nat → Except ε (List Nat)) : Except ε (ℚ × ℚ × ℚ) × Nat :=
  match qmc5883lReadLoop bus 10 0 0 0 0 with
  | (Except.error e, n) => (Except.error e, n)
  | (Except.ok (sX, sY, sZ), n) =>
      let avgX : ℚ := (sX : ℚ) / 10
      let avgY : ℚ := (sY : ℚ) / 10
      let avgZ : ℚ := (sZ : ℚ) / 10
      let scale : ℚ := if q.rng == 8 then 3000 else 12000
      (Except.ok (avgX / scale, avgY / scale, avgZ / scale), n)

/-- The control-register-1 byte composed by `initialize`. -/
def qmc5883lCtrl1Value (q : QMC5883LDriver) : Nat :=
  q.mode ||| goMapGet qmc5883lODRBits q.odr ||| goMapGet qmc5883lRNGBits q.rng ||| q.osr

/-- `initialize`: soft reset, control-1, control-2 writes, aborting on the
first bus error; the second component is the ordered trace of attempted
writes as `(register, value)` pairs. -/
def qmc5883lInitialize {ε : Type} (q : QMC5883LDriver)
    (write : Nat → Nat → Except ε Unit) : Except ε Unit × List (Nat × Nat) :=
  match write qmc5883lRegCtrl2 qmc5883lCtrl2_SOFT_RST with
  | Except.error e => (Except.error e, [(qmc5883lRegCtrl2, qmc5883lCtrl2_SOFT_RST)])
  | Except.ok _ =>
      match write qmc5883lRegCtrl1 (qmc5883lCtrl1Value q) with
      | Except.error e =>
          (Except.error e,
           [(qmc5883lRegCtrl2, qmc5883lCtrl2_SOFT_RST),
            (qmc5883lRegCtrl1, qmc5883lCtrl1Value q)])
      | Except.ok _ =>
          match write qmc5883lRegCtrl2 qmc5883lCtrl2_ROL_PNT with
          | Except.error e =>
              (Except.error e,
               [(qmc5883lRegCtrl2, qmc5883lCtrl2_SOFT_RST),
                (qmc5883lRegCtrl1, qmc5883lCtrl1Value q),
                (qmc5883lRegCtrl2, qmc5883lCtrl2_ROL_PNT)])
          | Except.ok _ =>
              (Except.ok (),
               [(qmc5883lRegCtrl2, qmc5883lCtrl2_SOFT_RST),
                (qmc5883lRegCtrl1, qmc5883lCtrl1Value q),
                (qmc5883lRegCtrl2, qmc5883lCtrl2_ROL_PNT)])

/-- Go `math.Atan2 y x`, modelled over `ℝ` by the argument of `x + i·y`
(both have range `(-π, π]` and agree on all finite inputs). -/
noncomputable def goAtan2 (y x : ℝ) : ℝ :=
  Complex.arg ⟨x, y⟩

/-- The heading computation of `Heading` on the filtered `(x, y)` components:
`atan2` in radians, to degrees, plus 360 if negative. -/
noncomputable def headingDegrees (x y : ℝ) : ℝ :=
  let hd := goAtan2 y x * 180 / Real.pi
  if hd < 0 then hd + 360 else hd

/-- `Heading`: one filtered `Read`, then `headingDegrees` on its x and y;
errors from `Read` propagate unchanged. -/
noncomputable def QMC5883LDriver.Heading {ε : Type} (q : QMC5883LDriver)
    (bus : Nat → Except ε (List Nat)) : Except ε ℝ :=
  match (q.Read bus).1 with
  | Except.error e => Except.error e
  | Except.ok (x, y, _) => Except.ok (headingDegrees (x : ℝ) (y : ℝ))

instance {ε α : Type} [DecidableEq ε] [DecidableEq α] : DecidableEq (Except ε α)
  | Except.error e, Except.error f =>
      if h : e = f then isTrue (by rw [h]) else isFalse (by intro he; cases he; exact h rfl)
  | Except.error _, Except.ok _ => isFalse (by intro h; cases h)
  | Except.ok _, Except.error _ => isFalse (by intro h; cases h)
  | Except.ok a, Except.ok b =>
      if h : a = b then isTrue (by rw [h]) else isFalse (by intro he; cases he; exact h rfl)

theorem toInt16_lb (n : Nat) : -32768 ≤ toInt16 n := by
  unfold toInt16
  split <;> omega

theorem toInt16_ub (n : Nat) : toInt16 n ≤ 32767 := by
  have h : n % 65536 < 65536 := Nat.mod_lt _ (by norm_num)
  unfold toInt16
  split <;> omega

theorem readRawData_ok_range {ε : Type} {r : Except ε (List Nat)} {x y z : Int}
    (h : readRawData r = Except.ok (x, y, z)) :
    (-32768 ≤ x ∧ x ≤ 32767) ∧ (-32768 ≤ y ∧ y ≤ 32767) ∧ (-32768 ≤ z ∧ z ≤ 32767) := by
  cases r with
  | error e => simp [readRawData] at h
  | ok data =>
      simp only [readRawData, Except.ok.injEq, Prod.mk.injEq] at h
      obtain ⟨hx, hy, hz⟩ := h
      subst hx; subst hy; subst hz
      exact ⟨⟨toInt16_lb _, toInt16_ub _⟩, ⟨toInt16_lb _, toInt16_ub _⟩,
        ⟨toInt16_lb _, toInt16_ub _⟩⟩

theorem wrap32_eq {m : Int} (h1 : -2 ^ 31 ≤ m) (h2 : m < 2 ^ 31) : wrap32 m = m := by
  have e32 : (2 : Int) ^ 32 = 4294967296 := by norm_num
  have e31 : (2 : Int) ^ 31 = 2147483648 := by norm_num
  unfold wrap32
  rw [e32, e31]
  rw [e31] at h1; rw [e31] at h2
  omega

theorem qmc5883lReadLoop_ok {ε : Type} (bus : Nat → Except ε (List Nat))
    (xs ys zs : Nat → Int) :
    ∀ (n i : Nat) (sX sY sZ : Int),
      (∀ j, j < n → readRawData (bus (i + j)) = Except.ok (xs (i + j), ys (i + j), zs (i + j))) →
      -2 ^ 31 + 32768 * n ≤ sX → sX ≤ 2 ^ 31 - 32768 * n →
      -2 ^ 31 + 32768 * n ≤ sY → sY ≤ 2 ^ 31 - 32768 * n →
      -2 ^ 31 + 32768 * n ≤ sZ → sZ ≤ 2 ^ 31 - 32768 * n →
      qmc5883lReadLoop bus n i sX sY sZ =
        (Except.ok (sX + ∑ j ∈ Finset.range n, xs (i + j),
                    sY + ∑ j ∈ Finset.range n, ys (i + j),
                    sZ + ∑ j ∈ Finset.range n, zs (i + j)), n) := by
  intro n
  induction n with
  | zero => intro i sX sY sZ h _ _ _ _ _ _; simp [qmc5883lReadLoop]
  | succ n ih =>
      intro i sX sY sZ h hX1 hX2 hY1 hY2 hZ1 hZ2
      have h0 : readRawData (bus i) = Except.ok (xs i, ys i, zs i) := by
        have := h 0 (Nat.succ_pos n)
        simpa using this
      obtain ⟨⟨hxl, hxu⟩, ⟨hyl, hyu⟩, ⟨hzl, hzu⟩⟩ := readRawData_ok_range h0
      simp only [qmc5883lReadLoop, h0]
      have wX : wrap32 (sX + xs i) = sX + xs i := wrap32_eq (by omega) (by omega)
      have wY : wrap32 (sY + ys i) = sY + ys i := wrap32_eq (by omega) (by omega)
      have wZ : wrap32 (sZ + zs i) = sZ + zs i := wrap32_eq (by omega) (by omega)
      rw [wX, wY, wZ]
      have hrec := ih (i + 1) (sX + xs i) (sY + ys i) (sZ + zs i)
        (by
          intro j hj
          have := h (j + 1) (by omega)
          have harg : i + (j + 1) = i + 1 + j := by omega
          rwa [harg] at this)
        (by omega) (by omega) (by omega) (by omega) (by omega) (by omega)
      rw [hrec]
      have sumX : sX + xs i + ∑ j ∈ Finset.range n, xs (i + 1 + j) =
          sX + ∑ j ∈ Finset.range (n + 1), xs (i + j) := by
        rw [Finset.sum_range_succ' (fun j => xs (i + j)) n]
        have : ∀ j, xs (i + (j + 1)) = xs (i + 1 + j) := by
          intro j; congr 1; omega
        simp only [this, Nat.add_zero]
        ring
      have sumY : sY + ys i + ∑ j ∈ Finset.range n, ys (i + 1 + j) =
          sY + ∑ j ∈ Finset.range (n + 1), ys (i + j) := by
        rw [Finset.sum_range_succ' (fun j => ys (i + j)) n]
        have : ∀ j, ys (i + (j + 1)) = ys (i + 1 + j) := by
          intro j; congr 1; omega
        simp only [this, Nat.add_zero]
        ring
      have sumZ : sZ + zs i + ∑ j ∈ Finset.range n, zs (i + 1 + j) =
          sZ + ∑ j ∈ Finset.range (n + 1), zs (i + j) := by
        rw [Finset.sum_range_succ' (fun j => zs (i + j)) n]
        have : ∀ j, zs (i + (j + 1)) = zs (i + 1 + j) := by
          intro j; congr 1; omega
        simp only [this, Nat.add_zero]
        ring
      rw [sumX, sumY, sumZ]

theorem qmc5883lReadLoop_error {ε : Type} (bus : Nat → Except ε (List Nat)) (e : ε) :
    ∀ (k n i : Nat) (sX sY sZ : Int), k < n →
      (∀ j, j < k → ∃ v, readRawData (bus (i + j)) = Except.ok v) →
      readRawData (bus (i + k)) = Except.error e →
      qmc5883lReadLoop bus n i sX sY sZ = (Except.error e, k + 1) := by
  intro k
  induction k with
  | zero =>
      intro n i sX sY sZ hn _ he
      obtain ⟨m, rfl⟩ : ∃ m, n = m + 1 := ⟨n - 1, by omega⟩
      rw [Nat.add_zero] at he
      simp [qmc5883lReadLoop, he]
  | succ k ih =>
      intro n i sX sY sZ hn h he
      obtain ⟨m, rfl⟩ : ∃ m, n = m + 1 := ⟨n - 1, by omega⟩
      obtain ⟨⟨xr, yr, zr⟩, hv⟩ := by
        have := h 0 (Nat.succ_pos k)
        rw [Nat.add_zero] at this
        exact this
      simp only [qmc5883lReadLoop, hv]
      have hrec := ih m (i + 1) (wrap32 (sX + xr)) (wrap32 (sY + yr)) (wrap32 (sZ + zr))
        (by omega)
        (by
          intro j hj
          have := h (j + 1) (by omega)
          have harg : i + (j + 1) = i + 1 + j := by omega
          rwa [harg] at this)
        (by
          have harg : i + (k + 1) = i + 1 + k := by omega
          rwa [harg] at he)
      rw [hrec]

/-- `Read` on a bus whose first 10 block reads all succeed: the result is the
per-axis sum divided by 10 and then by the range-dependent scale, and exactly
10 raw reads are performed (shared backbone for the filtered-read claims). -/
theorem qmc5883lRead_ok_of_raw {ε : Type} (q : QMC5883LDriver)
    (bus : Nat → Except ε (List Nat)) (xs ys zs : Nat → Int)
    (h : ∀ j, j < 10 → readRawData (bus j) = Except.ok (xs j, ys j, zs j)) :
    q.Read bus =
      (Except.ok
        (((∑ j ∈ Finset.range 10, xs j : Int) : ℚ) / 10 /
            (if q.rng == 8 then (3000 : ℚ) else 12000),
         ((∑ j ∈ Finset.range 10, ys j : Int) : ℚ) / 10 /
            (if q.rng == 8 then (3000 : ℚ) else 12000),
         ((∑ j ∈ Finset.range 10, zs j : Int) : ℚ) / 10 /
            (if q.rng == 8 then (3000 : ℚ) else 12000)), 10) := by
  have hloop := qmc5883lReadLoop_ok bus xs ys zs 10 0 0 0 0
    (by intro j hj; simpa using h j hj)
    (by norm_num) (by norm_num) (by norm_num) (by norm_num) (by norm_num) (by norm_num)
  simp only [Nat.zero_add, zero_add] at hloop
  simp only [QMC5883LDriver.Read, hloop]

/-- C1: on a bus whose 10 block reads all succeed, `Read` performs exactly 10
raw reads and returns, per axis, the sum of the 10 raw values divided by 10
and then by the range-dependent scale: 12000 at range 2 Gauss, 3000 at
range 8 Gauss. -/
theorem qmc5883l_read_filtered_average {ε : Type} (q : QMC5883LDriver)
    (bus : Nat → Except ε (List Nat)) (xs ys zs : Nat → Int)
    (h : ∀ j, j < 10 → readRawData (bus j) = Except.ok (xs j, ys j, zs j)) :
    (q.Read bus).2 = 10 ∧
    (q.rng = 2 →
      (q.Read bus).1 = Except.ok
        (((∑ j ∈ Finset.range 10, xs j : Int) : ℚ) / 10 / 12000,
         ((∑ j ∈ Finset.range 10, ys j : Int) : ℚ) / 10 / 12000,
         ((∑ j ∈ Finset.range 10, zs j : Int) : ℚ) / 10 / 12000)) ∧
    (q.rng = 8 →
      (q.Read bus).1 = Except.ok
        (((∑ j ∈ Finset.range 10, xs j : Int) : ℚ) / 10 / 3000,
         ((∑ j ∈ Finset.range 10, ys j : Int) : ℚ) / 10 / 3000,
         ((∑ j ∈ Finset.range 10, zs j : Int) : ℚ) / 10 / 3000)) := by
  have hr := qmc5883lRead_ok_of_raw q bus xs ys zs h
  refine ⟨by rw [hr], ?_, ?_⟩
  · intro h2
    rw [hr]
    simp [h2]
  · intro h8
    rw [hr]
    simp [h8]

/-- A bus that always answers the block `[0x2E, 0xE0, 0, 0, 0, 0]`,
i.e. raw x = 12000, y = z = 0. -/
def qmc5883lBusConst12000 : Nat → Except String (List Nat) :=
  fun _ => Except.ok [0x2E, 0xE0, 0, 0, 0, 0]

/-- C1 witness: 10 identical raw x readings of 12000 at range 2 Gauss yield
filtered x = 1.0 Gauss exactly, with exactly 10 raw reads. -/
theorem qmc5883l_read_filtered_average_witness :
    (qmc5883lDefaultDriver.Read qmc5883lBusConst12000).2 = 10 ∧
    (qmc5883lDefaultDriver.Read qmc5883lBusConst12000).1 = Except.ok (1, 0, 0) := by
  have h := qmc5883l_read_filtered_average qmc5883lDefaultDriver qmc5883lBusConst12000
    (fun _ => 12000) (fun _ => 0) (fun _ => 0) (by decide)
  refine ⟨h.1, ?_⟩
  rw [h.2.1 rfl]
  norm_num

/-- C5: if the first k < 10 raw reads succeed and the (k+1)-st fails with a
bus error, `Read` performs exactly k+1 raw reads and returns that error
(no averaged value). -/
theorem qmc5883l_read_abort {ε : Type} (q : QMC5883LDriver)
    (bus : Nat → Except ε (List Nat)) (e : ε) (k : Nat) (xs ys zs : Nat → Int)
    (hk : k < 10)
    (h : ∀ j, j < k → readRawData (bus j) = Except.ok (xs j, ys j, zs j))
    (he : readRawData (bus k) = Except.error e) :
    q.Read bus = (Except.error e, k + 1) := by
  have hloop := qmc5883lReadLoop_error bus e k 10 0 0 0 0 hk
    (by intro j hj; exact ⟨_, by simpa using h j hj⟩)
    (by simpa using he)
  simp only [QMC5883LDriver.Read, hloop]

/-- A bus whose first 3 block reads succeed and whose 4th fails. -/
def qmc5883lBusFail3 : Nat → Except String (List Nat) :=
  fun i => if i < 3 then Except.ok [0, 1, 0, 2, 0, 3] else Except.error "bus error"

/-- C5 witness: a failure on the 4th raw read aborts `Read` after exactly 4
raw reads, propagating the error. -/
theorem qmc5883l_read_abort_witness :
    qmc5883lDefaultDriver.Read qmc5883lBusFail3 = (Except.error "bus error", 4) :=
  qmc5883l_read_abort qmc5883lDefaultDriver qmc5883lBusFail3 "bus error" 3
    (fun _ => 1) (fun _ => 2) (fun _ => 3) (by decide) (by decide) (by decide)

/-- C9: across 10 successful raw reads the per-axis sums stay within
[-327680, 327680], hence within the int32 range, the 32-bit accumulation in
the read loop never wraps (it returns the exact mathematical sums), and the
per-axis average in `Read` is the exact sum divided by 10 (then scaled). -/
theorem qmc5883l_read_sum_no_overflow {ε : Type} (q : QMC5883LDriver)
    (bus : Nat → Except ε (List Nat)) (xs ys zs : Nat → Int)
    (h : ∀ j, j < 10 → readRawData (bus j) = Except.ok (xs j, ys j, zs j)) :
    (|∑ j ∈ Finset.range 10, xs j| ≤ 327680 ∧
     |∑ j ∈ Finset.range 10, ys j| ≤ 327680 ∧
     |∑ j ∈ Finset.range 10, zs j| ≤ 327680) ∧
    qmc5883lReadLoop bus 10 0 0 0 0 =
      (Except.ok (∑ j ∈ Finset.range 10, xs j, ∑ j ∈ Finset.range 10, ys j,
                  ∑ j ∈ Finset.range 10, zs j), 10) ∧
    (q.Read bus).1 = Except.ok
      (((∑ j ∈ Finset.range 10, xs j : Int) : ℚ) / 10 /
          (if q.rng == 8 then (3000 : ℚ) else 12000),
       ((∑ j ∈ Finset.range 10, ys j : Int) : ℚ) / 10 /
          (if q.rng == 8 then (3000 : ℚ) else 12000),
       ((∑ j ∈ Finset.range 10, zs j : Int) : ℚ) / 10 /
          (if q.rng == 8 then (3000 : ℚ) else 12000)) := by
  have habs : ∀ ws : Nat → Int,
      (∀ j, j < 10 → -32768 ≤ ws j ∧ ws j ≤ 32767) →
      |∑ j ∈ Finset.range 10, ws j| ≤ 327680 := by
    intro ws hw
    calc |∑ j ∈ Finset.range 10, ws j| ≤ ∑ j ∈ Finset.range 10, |ws j| :=
          Finset.abs_sum_le_sum_abs _ _
      _ ≤ ∑ _j ∈ Finset.range 10, (32768 : Int) := by
          refine Finset.sum_le_sum ?_
          intro j hj
          have := hw j (Finset.mem_range.mp hj)
          rw [abs_le]
          omega
      _ = 327680 := by simp
  have hloop := qmc5883lReadLoop_ok bus xs ys zs 10 0 0 0 0
    (by intro j hj; simpa using h j hj)
    (by norm_num) (by norm_num) (by norm_num) (by norm_num) (by norm_num) (by norm_num)
  simp only [Nat.zero_add, zero_add] at hloop
  refine ⟨⟨habs xs ?_, habs ys ?_, habs zs ?_⟩, hloop, ?_⟩
  · intro j hj
    have := (readRawData_ok_range (h j hj)).1
    omega
  · intro j hj
    have := (readRawData_ok_range (h j hj)).2.1
    omega
  · intro j hj
    have := (readRawData_ok_range (h j hj)).2.2
    omega
  · rw [qmc5883lRead_ok_of_raw q bus xs ys zs h]

/-- A bus answering extreme raw values: x = -32768, y = 32767, z = -1. -/
def qmc5883lBusExtreme : Nat → Except String (List Nat) :=
  fun _ => Except.ok [0x80, 0x00, 0x7F, 0xFF, 0xFF, 0xFF]

/-- C9 witness: even at the extreme raw values the sums stay in range and the
loop returns them exactly. -/
theorem qmc5883l_read_sum_no_overflow_witness :
    (|∑ _j ∈ Finset.range 10, (-32768 : Int)| ≤ 327680 ∧
     |∑ _j ∈ Finset.range 10, (32767 : Int)| ≤ 327680 ∧
     |∑ _j ∈ Finset.range 10, (-1 : Int)| ≤ 327680) ∧
    qmc5883lReadLoop qmc5883lBusExtreme 10 0 0 0 0 =
      (Except.ok (∑ _j ∈ Finset.range 10, (-32768 : Int),
                  ∑ _j ∈ Finset.range 10, (32767 : Int),
                  ∑ _j ∈ Finset.range 10, (-1 : Int)), 10) ∧
    (qmc5883lDefaultDriver.Read qmc5883lBusExtreme).1 = Except.ok
      (((∑ _j ∈ Finset.range 10, (-32768 : Int) : Int) : ℚ) / 10 /
          (if qmc5883lDefaultDriver.rng == 8 then (3000 : ℚ) else 12000),
       ((∑ _j ∈ Finset.range 10, (32767 : Int) : Int) : ℚ) / 10 /
          (if qmc5883lDefaultDriver.rng == 8 then (3000 : ℚ) else 12000),
       ((∑ _j ∈ Finset.range 10, (-1 : Int) : Int) : ℚ) / 10 /
          (if qmc5883lDefaultDriver.rng == 8 then (3000 : ℚ) else 12000)) :=
  qmc5883l_read_sum_no_overflow qmc5883lDefaultDriver qmc5883lBusExtreme
    (fun _ => -32768) (fun _ => 32767) (fun _ => -1) (by decide)

/-- C4: for any 6-byte block, `readRawData` reconstructs each axis as the
signed 16-bit value `(high << 8) | low` with the earlier byte of each 2-byte
pair as the high byte, and each result lies in the int16 range. -/
theorem qmc5883l_readRawData_spec {ε : Type} (d0 d1 d2 d3 d4 d5 : Nat)
    (h0 : d0 < 256) (h1 : d1 < 256) (h2 : d2 < 256)
    (h3 : d3 < 256) (h4 : d4 < 256) (h5 : d5 < 256) :
    readRawData (ε := ε) (Except.ok [d0, d1, d2, d3, d4, d5]) =
      Except.ok (toInt16 (d0 <<< 8 ||| d1), toInt16 (d2 <<< 8 ||| d3),
                 toInt16 (d4 <<< 8 ||| d5)) ∧
    (-32768 ≤ toInt16 (d0 <<< 8 ||| d1) ∧ toInt16 (d0 <<< 8 ||| d1) ≤ 32767) ∧
    (-32768 ≤ toInt16 (d2 <<< 8 ||| d3) ∧ toInt16 (d2 <<< 8 ||| d3) ≤ 32767) ∧
    (-32768 ≤ toInt16 (d4 <<< 8 ||| d5) ∧ toInt16 (d4 <<< 8 ||| d5) ≤ 32767) := by
  refine ⟨?_, ⟨toInt16_lb _, toInt16_ub _⟩, ⟨toInt16_lb _, toInt16_ub _⟩,
    ⟨toInt16_lb _, toInt16_ub _⟩⟩
  have hdef : readRawData (ε := ε) (Except.ok [d0, d1, d2, d3, d4, d5]) =
      Except.ok (toInt16 (d1 ||| d0 <<< 8), toInt16 (d3 ||| d2 <<< 8),
                 toInt16 (d5 ||| d4 <<< 8)) := rfl
  rw [hdef, Nat.or_comm d1 (d0 <<< 8), Nat.or_comm d3 (d2 <<< 8),
    Nat.or_comm d5 (d4 <<< 8)]

/-- C4 witness: the block `[FF FE 00 01 80 00]` decodes to
x = -2, y = 1, z = -32768. -/
theorem qmc5883l_readRawData_spec_witness :
    readRawData (ε := String) (Except.ok [0xFF, 0xFE, 0x00, 0x01, 0x80, 0x00]) =
      Except.ok (toInt16 (0xFF <<< 8 ||| 0xFE), toInt16 (0x00 <<< 8 ||| 0x01),
                 toInt16 (0x80 <<< 8 ||| 0x00)) ∧
    toInt16 (0xFF <<< 8 ||| 0xFE) = -2 ∧ toInt16 (0x00 <<< 8 ||| 0x01) = 1 ∧
    toInt16 (0x80 <<< 8 ||| 0x00) = -32768 :=
  ⟨(qmc5883l_readRawData_spec 0xFF 0xFE 0x00 0x01 0x80 0x00 (by decide) (by decide)
      (by decide) (by decide) (by decide) (by decide)).1,
   by decide, by decide, by decide⟩

/-- C2: `initialize` issues exactly three writes in order — soft reset 0x80 to
control register 2, then `mode | odrBits | rngBits | osrBits` to control
register 1, then roll-over 0x40 to control register 2 — and a bus error at any
write aborts the sequence, returning that error with no subsequent write
issued. -/
theorem qmc5883l_init_sequence_spec {ε : Type} (q : QMC5883LDriver)
    (write : Nat → Nat → Except ε Unit) (e : ε) :
    (write qmc5883lRegCtrl2 qmc5883lCtrl2_SOFT_RST = Except.ok () →
     write qmc5883lRegCtrl1
        (q.mode ||| goMapGet qmc5883lODRBits q.odr |||
         goMapGet qmc5883lRNGBits q.rng ||| q.osr) = Except.ok () →
     write qmc5883lRegCtrl2 qmc5883lCtrl2_ROL_PNT = Except.ok () →
     qmc5883lInitialize q write =
       (Except.ok (),
        [(qmc5883lRegCtrl2, qmc5883lCtrl2_SOFT_RST),
         (qmc5883lRegCtrl1,
          q.mode ||| goMapGet qmc5883lODRBits q.odr |||
          goMapGet qmc5883lRNGBits q.rng ||| q.osr),
         (qmc5883lRegCtrl2, qmc5883lCtrl2_ROL_PNT)])) ∧
    (write qmc5883lRegCtrl2 qmc5883lCtrl2_SOFT_RST = Except.error e →
     qmc5883lInitialize q write =
       (Except.error e, [(qmc5883lRegCtrl2, qmc5883lCtrl2_SOFT_RST)])) ∧
    (write qmc5883lRegCtrl2 qmc5883lCtrl2_SOFT_RST = Except.ok () →
     write qmc5883lRegCtrl1
        (q.mode ||| goMapGet qmc5883lODRBits q.odr |||
         goMapGet qmc5883lRNGBits q.rng ||| q.osr) = Except.error e →
     qmc5883lInitialize q write =
       (Except.error e,
        [(qmc5883lRegCtrl2, qmc5883lCtrl2_SOFT_RST),
         (qmc5883lRegCtrl1,
          q.mode ||| goMapGet qmc5883lODRBits q.odr |||
          goMapGet qmc5883lRNGBits q.rng ||| q.osr)])) ∧
    (write qmc5883lRegCtrl2 qmc5883lCtrl2_SOFT_RST = Except.ok () →
     write qmc5883lRegCtrl1
        (q.mode ||| goMapGet qmc5883lODRBits q.odr |||
         goMapGet qmc5883lRNGBits q.rng ||| q.osr) = Except.ok () →
     write qmc5883lRegCtrl2 qmc5883lCtrl2_ROL_PNT = Except.error e →
     qmc5883lInitialize q write =
       (Except.error e,
        [(qmc5883lRegCtrl2, qmc5883lCtrl2_SOFT_RST),
         (qmc5883lRegCtrl1,
          q.mode ||| goMapGet qmc5883lODRBits q.odr |||
          goMapGet qmc5883lRNGBits q.rng ||| q.osr),
         (qmc5883lRegCtrl2, qmc5883lCtrl2_ROL_PNT)])) := by
  refine ⟨?_, ?_, ?_, ?_⟩
  · intro h1 h2 h3
    simp only [qmc5883lInitialize, qmc5883lCtrl1Value, h1, h2, h3]
  · intro h1
    simp only [qmc5883lInitialize, qmc5883lCtrl1Value, h1]
  · intro h1 h2
    simp only [qmc5883lInitialize, qmc5883lCtrl1Value, h1, h2]
  · intro h1 h2 h3
    simp only [qmc5883lInitialize, qmc5883lCtrl1Value, h1, h2, h3]

/-- A write oracle on which every register write succeeds. -/
def qmc5883lWriteAllOk : Nat → Nat → Except String Unit :=
  fun _ _ => Except.ok ()

/-- C2 witness: with the default configuration and an error-free bus, the
three writes are (0x0A, 0x80), (0x09, 0x05), (0x0A, 0x40), in order. -/
theorem qmc5883l_init_sequence_spec_witness :
    qmc5883lInitialize qmc5883lDefaultDriver qmc5883lWriteAllOk =
      (Except.ok (), [(0x0A, 0x80), (0x09, 0x05), (0x0A, 0x40)]) :=
  (qmc5883l_init_sequence_spec qmc5883lDefaultDriver qmc5883lWriteAllOk "e").1
    (by decide) (by decide) (by decide)

theorem goSortInts_of_perm {l target : List Nat}
    (hp : l.Perm target) (hs : target.Sorted (· ≤ ·)) :
    goSortInts l = target :=
  List.eq_of_perm_of_sorted ((List.perm_insertionSort _ l).trans hp)
    (List.sorted_insertionSort _ l) hs

theorem goSortInts_odr_keys {l : List Nat} (hp : l.Perm (goMapKeys qmc5883lODRBits)) :
    goSortInts l = [10, 50, 100, 200] :=
  goSortInts_of_perm hp (by decide)

theorem goSortInts_rng_keys {l : List Nat} (hp : l.Perm (goMapKeys qmc5883lRNGBits)) :
    goSortInts l = [2, 8] :=
  goSortInts_of_perm hp (by decide)

theorem goSortInts_osr_keys {l : List Nat} (hp : l.Perm (goMapKeys qmc5883lOSRBits)) :
    goSortInts l = [64, 128, 256, 512] :=
  goSortInts_of_perm (hp.trans (by decide)) (by decide)

/-- C3: each legal ODR/range/OSR value validates successfully and maps to its
documented bit pattern; any other value fails with a message enumerating the
legal values in ascending order, whatever the map iteration order was. -/
theorem qmc5883l_validators_spec (iterO iterR iterS : List Nat)
    (hO : iterO.Perm (goMapKeys qmc5883lODRBits))
    (hR : iterR.Perm (goMapKeys qmc5883lRNGBits))
    (hS : iterS.Perm (goMapKeys qmc5883lOSRBits))
    (vO vR vS : Nat)
    (hvO : goMapLookup qmc5883lODRBits vO = none)
    (hvR : goMapLookup qmc5883lRNGBits vR = none)
    (hvS : goMapLookup qmc5883lOSRBits vS = none) :
    ((qmc5883lValidateODR iterO 10 = Except.ok () ∧
      qmc5883lValidateODR iterO 50 = Except.ok () ∧
      qmc5883lValidateODR iterO 100 = Except.ok () ∧
      qmc5883lValidateODR iterO 200 = Except.ok ()) ∧
     (goMapLookup qmc5883lODRBits 10 = some 0x00 ∧
      goMapLookup qmc5883lODRBits 50 = some 0x04 ∧
      goMapLookup qmc5883lODRBits 100 = some 0x08 ∧
      goMapLookup qmc5883lODRBits 200 = some 0x0C) ∧
     qmc5883lValidateODR iterO vO = Except.error "ODR must be one of: [10 50 100 200]") ∧
    ((qmc5883lValidateRNG iterR 2 = Except.ok () ∧
      qmc5883lValidateRNG iterR 8 = Except.ok ()) ∧
     (goMapLookup qmc5883lRNGBits 2 = some 0x00 ∧
      goMapLookup qmc5883lRNGBits 8 = some 0x10) ∧
     qmc5883lValidateRNG iterR vR = Except.error "RNG must be one of: [2 8]") ∧
    ((qmc5883lValidateOSR iterS 512 = Except.ok () ∧
      qmc5883lValidateOSR iterS 256 = Except.ok () ∧
      qmc5883lValidateOSR iterS 128 = Except.ok () ∧
      qmc5883lValidateOSR iterS 64 = Except.ok ()) ∧
     (goMapLookup qmc5883lOSRBits 512 = some 0x00 ∧
      goMapLookup qmc5883lOSRBits 256 = some 0x40 ∧
      goMapLookup qmc5883lOSRBits 128 = some 0x80 ∧
      goMapLookup qmc5883lOSRBits 64 = some 0xC0) ∧
     qmc5883lValidateOSR iterS vS = Except.error "OSR must be one of: [64 128 256 512]") := by
  refine ⟨⟨⟨rfl, rfl, rfl, rfl⟩, ⟨rfl, rfl, rfl, rfl⟩, ?_⟩,
          ⟨⟨rfl, rfl⟩, ⟨rfl, rfl⟩, ?_⟩,
          ⟨⟨rfl, rfl, rfl, rfl⟩, ⟨rfl, rfl, rfl, rfl⟩, ?_⟩⟩
  · simp only [qmc5883lValidateODR, hvO, Option.isSome_none, Bool.false_eq_true, if_false,
      goSortInts_odr_keys hO]
    rfl
  · simp only [qmc5883lValidateRNG, hvR, Option.isSome_none, Bool.false_eq_true, if_false,
      goSortInts_rng_keys hR]
    rfl
  · simp only [qmc5883lValidateOSR, hvS, Option.isSome_none, Bool.false_eq_true, if_false,
      goSortInts_osr_keys hS]
    rfl

/-- C3 witness: concrete illegal values 7, 3, 1000 produce the sorted
enumeration messages; the legal values validate. -/
theorem qmc5883l_validators_spec_witness :
    qmc5883lValidateODR [10, 50, 100, 200] 10 = Except.ok () ∧
    qmc5883lValidateODR [10, 50, 100, 200] 7 =
      Except.error "ODR must be one of: [10 50 100 200]" ∧
    qmc5883lValidateRNG [2, 8] 3 = Except.error "RNG must be one of: [2 8]" ∧
    qmc5883lValidateOSR [512, 256, 128, 64] 1000 =
      Except.error "OSR must be one of: [64 128 256 512]" := by
  have h := qmc5883l_validators_spec [10, 50, 100, 200] [2, 8] [512, 256, 128, 64]
    (List.Perm.refl _) (List.Perm.refl _) (List.Perm.refl _) 7 3 1000
    (by decide) (by decide) (by decide)
  exact ⟨h.1.1.1, h.1.2.2, h.2.1.2.2, h.2.2.2.2⟩

/-- C6: each option setter, applied to a QMC5883L driver, validates first and
then updates exactly its own field (the OSR field receiving the resolved bit
pattern); an illegal value aborts with the validation error, leaving no
updated driver. -/
theorem qmc5883l_setters_spec (iterO iterR iterS : List Nat)
    (hO : iterO.Perm (goMapKeys qmc5883lODRBits))
    (hR : iterR.Perm (goMapKeys qmc5883lRNGBits))
    (hS : iterS.Perm (goMapKeys qmc5883lOSRBits))
    (d : QMC5883LDriver) (vO vR vS : Nat) :
    ((goMapLookup qmc5883lODRBits vO).isSome = true →
        WithQMC5883LODR iterO vO d = Except.ok { d with odr := vO }) ∧
    (goMapLookup qmc5883lODRBits vO = none →
        WithQMC5883LODR iterO vO d =
          Except.error "ODR must be one of: [10 50 100 200]") ∧
    ((goMapLookup qmc5883lRNGBits vR).isSome = true →
        WithQMC5883LRNG iterR vR d = Except.ok { d with rng := vR }) ∧
    (goMapLookup qmc5883lRNGBits vR = none →
        WithQMC5883LRNG iterR vR d = Except.error "RNG must be one of: [2 8]") ∧
    ((goMapLookup qmc5883lOSRBits vS).isSome = true →
        WithQMC5883LOSR iterS vS d =
          Except.ok { d with osr := goMapGet qmc5883lOSRBits vS }) ∧
    (goMapLookup qmc5883lOSRBits vS = none →
        WithQMC5883LOSR iterS vS d =
          Except.error "OSR must be one of: [64 128 256 512]") := by
  refine ⟨?_, ?_, ?_, ?_, ?_, ?_⟩
  · intro hs
    simp only [WithQMC5883LODR, qmc5883lValidateODR, hs, if_true]
  · intro hn
    simp only [WithQMC5883LODR, qmc5883lValidateODR, hn, Option.isSome_none,
      Bool.false_eq_true, if_false, goSortInts_odr_keys hO]
    rfl
  · intro hs
    simp only [WithQMC5883LRNG, qmc5883lValidateRNG, hs, if_true]
  · intro hn
    simp only [WithQMC5883LRNG, qmc5883lValidateRNG, hn, Option.isSome_none,
      Bool.false_eq_true, if_false, goSortInts_rng_keys hR]
    rfl
  · intro hs
    simp only [WithQMC5883LOSR, qmc5883lValidateOSR, hs, if_true]
  · intro hn
    simp only [WithQMC5883LOSR, qmc5883lValidateOSR, hn, Option.isSome_none,
      Bool.false_eq_true, if_false, goSortInts_osr_keys hS]
    rfl

/-- C6 witness: legal values update exactly their own field (OSR 64 stores
bit pattern 0xC0); the illegal range 3 aborts with the validation error. -/
theorem qmc5883l_setters_spec_witness :
    WithQMC5883LODR [10, 50, 100, 200] 100 qmc5883lDefaultDriver =
      Except.ok { qmc5883lDefaultDriver with odr := 100 } ∧
    WithQMC5883LRNG [2, 8] 3 qmc5883lDefaultDriver =
      Except.error "RNG must be one of: [2 8]" ∧
    WithQMC5883LOSR [512, 256, 128, 64] 64 qmc5883lDefaultDriver =
      Except.ok { qmc5883lDefaultDriver with osr := goMapGet qmc5883lOSRBits 64 } := by
  have h := qmc5883l_setters_spec [10, 50, 100, 200] [2, 8] [512, 256, 128, 64]
    (List.Perm.refl _) (List.Perm.refl _) (List.Perm.refl _)
    qmc5883lDefaultDriver 100 3 64
  exact ⟨h.1 (by decide), h.2.2.2.1 (by decide), h.2.2.2.2.1 (by decide)⟩

theorem goMapGet_zero_or_mem (m : List (Nat × Nat)) (k : Nat) :
    goMapGet m k = 0 ∨ goMapGet m k ∈ m.map (fun p => p.2) := by
  induction m with
  | nil => left; rfl
  | cons p m ih =>
      simp only [goMapGet, goMapLookup, List.find?]
      cases hpk : (p.1 == k) with
      | true => right; simp
      | false =>
          simp only [goMapGet, goMapLookup] at ih
          rcases ih with h | h
          · left; exact h
          · right; simp only [List.map_cons, List.mem_cons]; right; exact h

theorem qmc5883l_fold_mode_invariant :
    ∀ (opts : List QMC5883LOption) (d0 : QMC5883LDriver),
      d0.mode = qmc5883lCtrl1_Mode_Continuous →
      (d0.osr = 0 ∨ d0.osr ∈ qmc5883lOSRBits.map (fun p => p.2)) →
      ∀ d, List.foldlM applyQMC5883LOption d0 opts = Except.ok d →
        d.mode = qmc5883lCtrl1_Mode_Continuous ∧
        (d.osr = 0 ∨ d.osr ∈ qmc5883lOSRBits.map (fun p => p.2)) := by
  intro opts
  induction opts with
  | nil =>
      intro d0 hm ho d hfold
      simp only [List.foldlM_nil] at hfold
      cases hfold
      exact ⟨hm, ho⟩
  | cons o opts ih =>
      intro d0 hm ho d hfold
      simp only [List.foldlM_cons] at hfold
      cases hstep : applyQMC5883LOption d0 o with
      | error e =>
          rw [hstep] at hfold
          simp only [bind, Except.bind] at hfold
          cases hfold
      | ok d1 =>
          rw [hstep] at hfold
          simp only [bind, Except.bind] at hfold
          refine ih d1 ?_ ?_ d hfold
          all_goals
            cases o with
            | odr iter val =>
                simp only [applyQMC5883LOption, WithQMC5883LODR] at hstep
                cases hv : qmc5883lValidateODR iter val with
                | error e => rw [hv] at hstep; cases hstep
                | ok u =>
                    rw [hv] at hstep
                    cases hstep
                    first
                    | exact hm
                    | exact ho
            | rng iter val =>
                simp only [applyQMC5883LOption, WithQMC5883LRNG] at hstep
                cases hv : qmc5883lValidateRNG iter val with
                | error e => rw [hv] at hstep; cases hstep
                | ok u =>
                    rw [hv] at hstep
                    cases hstep
                    first
                    | exact hm
                    | exact ho
            | osr iter val =>
                simp only [applyQMC5883LOption, WithQMC5883LOSR] at hstep
                cases hv : qmc5883lValidateOSR iter val with
                | error e => rw [hv] at hstep; cases hstep
                | ok u =>
                    rw [hv] at hstep
                    cases hstep
                    first
                    | exact hm
                    | exact goMapGet_zero_or_mem qmc5883lOSRBits val

/-- C10: every driver the constructor produces, under any combination of the
exposed options, has operating mode 0x01 (continuous), and the mode bits
(bits 0-1) of the control-register-1 byte composed by `initialize` equal the
continuous pattern. -/
theorem qmc5883l_ctor_mode_continuous (opts : List QMC5883LOption)
    (d : QMC5883LDriver) (h : NewQMC5883LDriver opts = Except.ok d) :
    d.mode = qmc5883lCtrl1_Mode_Continuous ∧
    qmc5883lCtrl1Value d &&& 0x03 = qmc5883lCtrl1_Mode_Continuous := by
  have hinv := qmc5883l_fold_mode_invariant opts qmc5883lDefaultDriver rfl
    (Or.inl rfl) d h
  obtain ⟨hm, ho⟩ := hinv
  refine ⟨hm, ?_⟩
  have hodr := goMapGet_zero_or_mem qmc5883lODRBits d.odr
  have hrng := goMapGet_zero_or_mem qmc5883lRNGBits d.rng
  unfold qmc5883lCtrl1Value
  rw [hm]
  simp only [qmc5883lODRBits, qmc5883lRNGBits, qmc5883lOSRBits,
    qmc5883lCtrl1_ODR_10Hz, qmc5883lCtrl1_ODR_50Hz, qmc5883lCtrl1_ODR_100Hz,
    qmc5883lCtrl1_ODR_200Hz, qmc5883lCtrl1_RNG_2G, qmc5883lCtrl1_RNG_8G,
    qmc5883lCtrl1_OSR_512, qmc5883lCtrl1_OSR_256, qmc5883lCtrl1_OSR_128,
    qmc5883lCtrl1_OSR_64, List.map_cons, List.map_nil, List.mem_cons,
    List.not_mem_nil, or_false, List.mem_singleton] at hodr hrng ho ⊢
  rcases hodr with h1 | h1 | h1 | h1 | h1 <;>
    rcases hrng with h2 | h2 | h2 <;>
      rcases ho with h3 | h3 | h3 | h3 | h3 <;>
        rw [h1, h2, h3] <;> decide

/-- C10 witness: a construction using all three option setters still yields
mode 0x01 and continuous mode bits in the composed control-1 byte. -/
theorem qmc5883l_ctor_mode_continuous_witness :
    ({ odr := 200, rng := 8, osr := 0xC0,
       mode := 0x01 } : QMC5883LDriver).mode = qmc5883lCtrl1_Mode_Continuous ∧
    qmc5883lCtrl1Value { odr := 200, rng := 8, osr := 0xC0, mode := 0x01 } &&& 0x03 =
      qmc5883lCtrl1_Mode_Continuous :=
  qmc5883l_ctor_mode_continuous
    [QMC5883LOption.odr [10, 50, 100, 200] 200, QMC5883LOption.rng [2, 8] 8,
     QMC5883LOption.osr [512, 256, 128, 64] 64]
    { odr := 200, rng := 8, osr := 0xC0, mode := 0x01 } (by decide)

theorem goAtan2_zero_one : goAtan2 0 1 = 0 := by
  have h : (⟨1, 0⟩ : ℂ) = 1 := by simp [Complex.ext_iff]
  unfold goAtan2
  rw [h]
  exact Complex.arg_one

theorem goAtan2_one_zero : goAtan2 1 0 = Real.pi / 2 := by
  have h : (⟨0, 1⟩ : ℂ) = Complex.I := rfl
  unfold goAtan2
  rw [h]
  exact Complex.arg_I

theorem goAtan2_zero_neg_one : goAtan2 0 (-1) = Real.pi := by
  have h : (⟨-1, 0⟩ : ℂ) = -1 := by simp [Complex.ext_iff]
  unfold goAtan2
  rw [h]
  exact Complex.arg_neg_one

theorem goAtan2_neg_one_zero : goAtan2 (-1) 0 = -(Real.pi / 2) := by
  have h : (⟨0, -1⟩ : ℂ) = -Complex.I := by simp [Complex.ext_iff]
  unfold goAtan2
  rw [h]
  exact Complex.arg_neg_I

theorem headingDegrees_mem_Ico (x y : ℝ) :
    0 ≤ headingDegrees x y ∧ headingDegrees x y < 360 := by
  have hpi := Real.pi_pos
  have h1 : -Real.pi < goAtan2 y x := Complex.neg_pi_lt_arg _
  have h2 : goAtan2 y x ≤ Real.pi := Complex.arg_le_pi _
  have hub : goAtan2 y x * 180 / Real.pi ≤ 180 := by
    rw [div_le_iff₀ hpi]
    nlinarith
  have hlb : -180 < goAtan2 y x * 180 / Real.pi := by
    rw [lt_div_iff₀ hpi]
    nlinarith
  simp only [headingDegrees]
  split <;> constructor <;> linarith

theorem headingDegrees_east : headingDegrees 1 0 = 0 := by
  simp only [headingDegrees, goAtan2_zero_one]
  norm_num

theorem headingDegrees_north : headingDegrees 0 1 = 90 := by
  simp only [headingDegrees, goAtan2_one_zero]
  have h90 : Real.pi / 2 * 180 / Real.pi = 90 := by
    field_simp
    ring
  rw [h90]
  norm_num

theorem headingDegrees_west : headingDegrees (-1) 0 = 180 := by
  simp only [headingDegrees, goAtan2_zero_neg_one]
  have h180 : Real.pi * 180 / Real.pi = 180 := by
    field_simp
  rw [h180]
  norm_num

theorem headingDegrees_south : headingDegrees 0 (-1) = 270 := by
  simp only [headingDegrees, goAtan2_neg_one_zero]
  have h90 : -(Real.pi / 2) * 180 / Real.pi = -90 := by
    field_simp
    ring
  rw [h90]
  norm_num

/-- C7: `Heading` is `atan2(y, x)` on the components of one filtered read,
converted to degrees with 360 added when negative, so a successful heading
lies in [0, 360); the cardinal directions map to 0°, 90°, 180°, 270°; a
filtered-read error propagates unchanged. -/
theorem qmc5883l_heading_spec {ε : Type} (q : QMC5883LDriver)
    (bus : Nat → Except ε (List Nat)) (x y z : ℚ) (e : ε) :
    ((q.Read bus).1 = Except.ok (x, y, z) →
        q.Heading bus = Except.ok (headingDegrees (x : ℝ) (y : ℝ)) ∧
        0 ≤ headingDegrees (x : ℝ) (y : ℝ) ∧
        headingDegrees (x : ℝ) (y : ℝ) < 360) ∧
    ((q.Read bus).1 = Except.error e → q.Heading bus = Except.error e) ∧
    headingDegrees 1 0 = 0 ∧ headingDegrees 0 1 = 90 ∧
    headingDegrees (-1) 0 = 180 ∧ headingDegrees 0 (-1) = 270 := by
  refine ⟨?_, ?_, headingDegrees_east, headingDegrees_north,
    headingDegrees_west, headingDegrees_south⟩
  · intro h
    refine ⟨?_, headingDegrees_mem_Ico _ _⟩
    simp only [QMC5883LDriver.Heading, h]
  · intro h
    simp only [QMC5883LDriver.Heading, h]

/-- On the constant-12000 bus the filtered read is exactly (1, 0, 0) Gauss. -/
theorem qmc5883lBusConst12000_read :
    (qmc5883lDefaultDriver.Read qmc5883lBusConst12000).1 = Except.ok (1, 0, 0) := by
  rw [qmc5883lRead_ok_of_raw qmc5883lDefaultDriver qmc5883lBusConst12000
    (fun _ => 12000) (fun _ => 0) (fun _ => 0) (by decide)]
  norm_num [qmc5883lDefaultDriver]

/-- C7 witness: on the constant-12000 bus, `Heading` returns the heading of
(1, 0), which is 0°. -/
theorem qmc5883l_heading_spec_witness :
    qmc5883lDefaultDriver.Heading qmc5883lBusConst12000 =
      Except.ok (headingDegrees ((1 : ℚ) : ℝ) ((0 : ℚ) : ℝ)) ∧
    headingDegrees ((1 : ℚ) : ℝ) ((0 : ℚ) : ℝ) = 0 := by
  have h := (qmc5883l_heading_spec qmc5883lDefaultDriver qmc5883lBusConst12000
    1 0 0 "e").1 qmc5883lBusConst12000_read
  refine ⟨h.1, ?_⟩
  rw [Rat.cast_one, Rat.cast_zero]
  exact headingDegrees_east

/-- C8: the heading is invariant under scaling both filtered components by
the same positive constant. -/
theorem qmc5883l_heading_scale_invariant (k x y : ℝ) (hk : 0 < k) :
    headingDegrees (k * x) (k * y) = headingDegrees x y := by
  have harg : goAtan2 (k * y) (k * x) = goAtan2 y x := by
    unfold goAtan2
    have hmk : (⟨k * x, k * y⟩ : ℂ) = (k : ℂ) * ⟨x, y⟩ := by
      simp [Complex.ext_iff, Complex.mul_re, Complex.mul_im]
    rw [hmk]
    exact Complex.arg_real_mul _ hk
  simp only [headingDegrees, harg]

/-- C8 witness: doubling the components of (1, 0) leaves the heading at the
heading of (1, 0). -/
theorem qmc5883l_heading_scale_invariant_witness :
    headingDegrees (2 * 1) (2 * 0) = headingDegrees 1 0 :=
  qmc5883l_heading_scale_invariant 2 1 0 two_pos
